import Mathlib

/-!
Shallow embedding of the appointment-scheduling core of the
hospital-management backend (mongoose models `schedule.model.ts`,
`appointment.model.ts`, `schedule-generation.service.ts` and the
appointment controller).

Modelling conventions:
* Dates are day-granular natural numbers (the code normalizes dates with
  `setHours(0,0,0,0)`); day 0 is 1970-01-01, a Thursday, matching the
  weekday computation of `toLocaleDateString`.
* Times are the HH:MM strings the code stores and compares by string
  equality.
* Object ids are naturals drawn from a `nextId` counter of the store.
* A mongoose `save()` runs the schema validators (`min` bounds on the
  slot counters) and the `pre("save")` hook of `schedule.model.ts`
  (start before end, occupancy bound, exactly one hour per slot); a
  write that fails validation leaves the stored document unchanged.
  The past-date clause of the hooks is not modelled (the embedding has
  no ambient clock; the controller paths re-validate dates against the
  `today` parameter before any write).
* Free-text appointment fields (reason, symptoms, notes, diagnosis,
  prescription, isUrgent, paymentStatus, type) carry no scheduling
  state and are omitted from the appointment record.
-/

/-- Appointment lifecycle status, `appointment.model.ts` enum. -/
inductive AppointmentStatus where
  | scheduled
  | confirmed
  | in_progress
  | completed
  | cancelled
  | no_show
deriving Repr, DecidableEq

/-- A bookable time slot, `timeSlotSchema` of `schedule.model.ts`.
Counters are integers so that the non-negativity claimed by the spec is
meaningful rather than built into the type. -/
structure TimeSlot where
  startTime : String
  endTime : String
  isAvailable : Bool
  maxAppointments : Int
  currentAppointments : Int
deriving Repr, DecidableEq

/-- A schedule (Calendar): one per (doctor, date), `scheduleSchema`. -/
structure Schedule where
  id : Nat
  doctor : Nat
  date : Nat
  timeSlots : List TimeSlot
  isActive : Bool
  notes : String
deriving Repr, DecidableEq

/-- An appointment record, `appointmentSchema`. -/
structure Appointment where
  id : Nat
  patient : Nat
  doctor : Nat
  schedule : Nat
  appointmentDate : Nat
  startTime : String
  endTime : String
  status : AppointmentStatus
  cancellationReason : Option String
  cancelledBy : Option String
  cancelledAt : Option Nat
deriving Repr, DecidableEq

/-- The persistent store: the two mongo collections plus an id counter. -/
structure DbState where
  schedules : List Schedule
  appointments : List Appointment
  nextId : Nat
deriving Repr, DecidableEq

/-- Two-digit zero padding, `String.padStart(2, "0")`. -/
def pad2 (n : Nat) : String :=
  if n < 10 then "0" ++ toString n else toString n

/-- Format minutes-since-midnight as HH:MM, as the slot generator does. -/
def formatTime (m : Nat) : String :=
  pad2 (m / 60) ++ ":" ++ pad2 (m % 60)

/-- Decimal value of a digit string (`Number("09") = 9`). -/
def digitsToNat (cs : List Char) : Nat :=
  cs.foldl (fun n c => n * 10 + (c.toNat - 48)) 0

/-- Parse an HH:MM string to minutes since midnight
(`start.split(":").map(Number)` and the `Date` arithmetic of the hooks;
all times handled by the system match the schema HH:MM pattern). -/
def parseTimeMin (s : String) : Nat :=
  match s.data.span (fun c => c != ':') with
  | (hs, _ :: ms) => digitsToNat hs * 60 + digitsToNat ms
  | (_, []) => 0

/-- English weekday name of a day number; day 0 (1970-01-01) is a
Thursday, matching `toLocaleDateString("en-US", { weekday: "long" })`. -/
def dayOfWeekName (d : Nat) : String :=
  ["thursday", "friday", "saturday", "sunday", "monday", "tuesday",
    "wednesday"].getD (d % 7) "thursday"

/-- Replace the first element satisfying `p` (the `findIndex` +
in-place mutation idiom of the controllers). -/
def modifyFirst {α : Type} (p : α → Bool) (f : α → α) : List α → List α
  | [] => []
  | a :: as => if p a then f a :: as else a :: modifyFirst p f as

/-- The status set `["scheduled", "confirmed", "in_progress"]` used by
`checkSlotAvailability` for both the duplicate and the capacity query. -/
def isActiveStatus (s : AppointmentStatus) : Bool :=
  match s with
  | .scheduled => true
  | .confirmed => true
  | .in_progress => true
  | _ => false

/-- Schema `min` validators plus the occupancy/time clauses of the
`pre("save")` hook of `scheduleSchema`: every slot has
`0 ≤ currentAppointments`, `1 ≤ maxAppointments`,
`currentAppointments ≤ maxAppointments`, starts before it ends and lasts
exactly one hour. A `save()` whose document violates this fails. -/
def slotBoundsB (t : TimeSlot) : Bool :=
  decide (0 ≤ t.currentAppointments) && decide (t.currentAppointments ≤ t.maxAppointments)

def scheduleWriteOk (slots : List TimeSlot) : Bool :=
  slots.all (fun t =>
    slotBoundsB t && decide (1 ≤ t.maxAppointments)
      && decide (parseTimeMin t.startTime < parseTimeMin t.endTime)
      && decide (parseTimeMin t.endTime - parseTimeMin t.startTime = 60))

/-- `Schedule.findByDoctorAndDate`: first active schedule of the doctor
on that (normalized) date. -/
def findByDoctorAndDate (st : DbState) (doctorId date : Nat) : Option Schedule :=
  st.schedules.find? (fun x => x.doctor == doctorId && x.date == date && x.isActive)

/-- `Schedule.findById`. -/
def findScheduleById (st : DbState) (schedId : Nat) : Option Schedule :=
  st.schedules.find? (fun x => x.id == schedId)

/-- Overwrite the stored schedule(s) with the given id. -/
def replaceSchedule (st : DbState) (sch : Schedule) : DbState :=
  { st with schedules := st.schedules.map (fun x => if x.id == sch.id then sch else x) }

/-- `schedule.save()` on an already-stored document, as called from the
appointment controller inside `try { ... } catch { /- continue -/ }`:
if validation fails the error is swallowed and the store is unchanged. -/
def trySaveExisting (st : DbState) (sch : Schedule) : DbState :=
  if scheduleWriteOk sch.timeSlots then replaceSchedule st sch else st

/-- `new Schedule(...).save()`: fails on the unique `{doctor, date}`
index or on validation, otherwise inserts with a fresh id. -/
def saveNew (st : DbState) (sch : Schedule) : Except String Schedule × DbState :=
  if st.schedules.any (fun x => x.doctor == sch.doctor && x.date == sch.date) then
    (.error "E11000 duplicate key", st)
  else if scheduleWriteOk sch.timeSlots then
    let saved : Schedule := { sch with id := st.nextId }
    (.ok saved,
      { st with schedules := st.schedules ++ [saved], nextId := st.nextId + 1 })
  else (.error "schedule validation failed", st)

/-- Instance method `updateSlotAvailability`: recompute every slot flag
as `currentAppointments < maxAppointments`. -/
def updateSlotAvailability (slots : List TimeSlot) : List TimeSlot :=
  slots.map (fun t =>
    { t with isAvailable := decide (t.currentAppointments < t.maxAppointments) })

/-- Overwrite the stored appointment with the same id. -/
def replaceAppointment (st : DbState) (a : Appointment) : DbState :=
  { st with appointments := st.appointments.map (fun x => if x.id == a.id then a else x) }

/-- Doctor schedule preferences, `DoctorSchedulePreferences`. -/
structure SchedulePreferences where
  workingHoursStart : String
  workingHoursEnd : String
  slotDuration : Nat
  maxAppointmentsPerSlot : Int
  workingDays : List String
  excludeWeekends : Bool
deriving Repr, DecidableEq

/-- `ScheduleGenerationService.DEFAULT_PREFERENCES`. -/
def defaultPreferences : SchedulePreferences :=
  { workingHoursStart := "09:00"
    workingHoursEnd := "17:00"
    slotDuration := 60
    maxAppointmentsPerSlot := 2
    workingDays := ["monday", "tuesday", "wednesday", "thursday", "friday"]
    excludeWeekends := true }

/-- A day is generated when weekends are not excluded or it is a
working day (`!(excludeWeekends && !workingDays.includes(day))`). -/
def isWorkingDay (p : SchedulePreferences) (d : Nat) : Bool :=
  !p.excludeWeekends || p.workingDays.contains (dayOfWeekName d)

/-- `ScheduleGenerationService.generateTimeSlots`: slice the working
window into slots of `slotDuration` minutes (`for time = start;
time < end; time += slotDuration`). -/
def generateTimeSlots (p : SchedulePreferences) : List TimeSlot :=
  let startMin := parseTimeMin p.workingHoursStart
  let endMin := parseTimeMin p.workingHoursEnd
  if p.slotDuration = 0 then []
  else
    (List.range ((endMin - startMin + p.slotDuration - 1) / p.slotDuration)).map
      (fun i =>
        let t := startMin + i * p.slotDuration
        { startTime := formatTime t
          endTime := formatTime (t + p.slotDuration)
          isAvailable := true
          maxAppointments := p.maxAppointmentsPerSlot
          currentAppointments := 0 })

/-- The slot list built inline by `Schedule.createDefaultSchedule`
(`for hour = 9; hour < 17`, capacity 2, zero occupancy). -/
def defaultScheduleTimeSlots : List TimeSlot :=
  (List.range 8).map (fun i =>
    let hour := 9 + i
    { startTime := pad2 hour ++ ":00"
      endTime := pad2 (hour + 1) ++ ":00"
      isAvailable := true
      maxAppointments := 2
      currentAppointments := 0 })

/-- The document `createScheduleForDate` builds before saving. -/
def genSchedule (doctorId date : Nat) : Schedule :=
  { id := 0, doctor := doctorId, date := date
    timeSlots := generateTimeSlots defaultPreferences
    isActive := true, notes := "Auto-generated schedule" }

/-- The document `Schedule.createDefaultSchedule` builds before saving. -/
def defSchedule (doctorId date : Nat) : Schedule :=
  { id := 0, doctor := doctorId, date := date
    timeSlots := defaultScheduleTimeSlots
    isActive := true, notes := "Default schedule created automatically" }

/-- `ScheduleGenerationService.createScheduleForDate`: return the
existing active schedule, otherwise synthesize one from the default
preferences and save it. -/
def createScheduleForDate (st : DbState) (doctorId date : Nat) :
    Except String Schedule × DbState :=
  match findByDoctorAndDate st doctorId date with
  | some s => (.ok s, st)
  | none => saveNew st (genSchedule doctorId date)

/-- `Schedule.createDefaultSchedule`: same shape, with the inline
default slot list. -/
def createDefaultSchedule (st : DbState) (doctorId date : Nat) :
    Except String Schedule × DbState :=
  match findByDoctorAndDate st doctorId date with
  | some s => (.ok s, st)
  | none => saveNew st (defSchedule doctorId date)

/-- Loop body of `ensureFutureSchedules`: for each offset, skip days
already covered or non-working, otherwise create; a creation error is
rethrown, aborting the remaining days. -/
def ensureLoop (doctorId today : Nat) (existingDates : List Nat) :
    DbState → List Nat → DbState × Bool
  | st, [] => (st, true)
  | st, i :: is =>
      let date := today + i
      if existingDates.contains date then ensureLoop doctorId today existingDates st is
      else if isWorkingDay defaultPreferences date then
        match createScheduleForDate st doctorId date with
        | (.ok _, st') => ensureLoop doctorId today existingDates st' is
        | (.error _, st') => (st', false)
      else ensureLoop doctorId today existingDates st is

/-- `ScheduleGenerationService.ensureFutureSchedules`: make sure the
next seven days are covered. The Boolean is false when a creation
error aborted the run (the caller decides whether to swallow it). -/
def ensureFutureSchedules (st : DbState) (doctorId today : Nat) : DbState × Bool :=
  let existingDates :=
    (st.schedules.filter (fun s =>
      s.doctor == doctorId && today ≤ s.date && s.date ≤ today + 7 && s.isActive)).map
      (fun s => s.date)
  ensureLoop doctorId today existingDates st [1, 2, 3, 4, 5, 6, 7]

/-- Result of `Appointment.checkSlotAvailability` (reason strings are
the literals of the source; the possessive apostrophe of one message is
dropped to keep the file ASCII-clean). -/
structure SlotCheck where
  available : Bool
  reason : String
  currentAppointments : Option Int
  maxAppointments : Option Int
deriving Repr, DecidableEq

/-- The duplicate-patient rejection message. -/
def duplicateMsg : String :=
  "You already have an appointment booked for this time slot. Please choose a different time."

/-- The patient-specific query of `checkSlotAvailability`: any
appointment of this patient at this exact date and times with status in
the active set, other than the excluded one. The doctor is not part of
the filter. -/
def hasPatientConflict (st : DbState) (patientId date : Nat)
    (startT endT : String) (excludeId : Option Nat) : Bool :=
  st.appointments.any (fun a =>
    a.patient == patientId && a.appointmentDate == date
      && a.startTime == startT && a.endTime == endT
      && isActiveStatus a.status
      && (match excludeId with | none => true | some x => !(a.id == x)))

/-- The capacity query of `checkSlotAvailability`: count this doctor's
active appointments in the slot, excluding the given id. -/
def countSlotAppointments (st : DbState) (doctorId date : Nat)
    (startT endT : String) (excludeId : Option Nat) : Nat :=
  (st.appointments.filter (fun a =>
    a.doctor == doctorId && a.appointmentDate == date
      && a.startTime == startT && a.endTime == endT
      && isActiveStatus a.status
      && (match excludeId with | none => true | some x => !(a.id == x)))).length

/-- Static `Appointment.checkSlotAvailability`. -/
def checkSlotAvailability (st : DbState) (doctorId date : Nat)
    (startT endT : String) (excludeId : Option Nat) (patientId : Option Nat) :
    SlotCheck :=
  match findByDoctorAndDate st doctorId date with
  | none =>
      { available := false, reason := "No schedule found for this date"
        currentAppointments := none, maxAppointments := none }
  | some schedule =>
      match schedule.timeSlots.find? (fun s => s.startTime == startT && s.endTime == endT) with
      | none =>
          { available := false
            reason := "Requested time slot not available in doctors schedule"
            currentAppointments := none, maxAppointments := none }
      | some requestedSlot =>
          if !requestedSlot.isAvailable then
            { available := false, reason := "Time slot is not available"
              currentAppointments := none, maxAppointments := none }
          else
            let dup :=
              match patientId with
              | some pid => hasPatientConflict st pid date startT endT excludeId
              | none => false
            if dup then
              { available := false, reason := duplicateMsg
                currentAppointments := some 0, maxAppointments := some 1 }
            else
              let existing := countSlotAppointments st doctorId date startT endT excludeId
              let maxA :=
                if requestedSlot.maxAppointments == 0 then 1
                else requestedSlot.maxAppointments
              let avail := decide ((existing : Int) < maxA)
              { available := avail
                reason :=
                  if avail then "Slot is available"
                  else "Maximum appointments reached for this slot"
                currentAppointments := some (existing : Int)
                maxAppointments := some maxA }

/-- One entry of the `Schedule.getAvailableSlots` result. -/
structure SlotInfo where
  startTime : String
  endTime : String
  isAvailable : Bool
  maxAppointments : Int
  currentAppointments : Int
  availableSpots : Int
deriving Repr, DecidableEq

/-- Static `Schedule.getAvailableSlots`: look the schedule up without
the `isActive` filter (the source deliberately checks both active and
inactive) and return every slot with its booking counts. -/
def getAvailableSlots (st : DbState) (doctorId date : Nat) : List SlotInfo :=
  match st.schedules.find? (fun x => x.doctor == doctorId && x.date == date) with
  | none => []
  | some schedule =>
      schedule.timeSlots.map (fun t =>
        { startTime := t.startTime
          endTime := t.endTime
          isAvailable := t.isAvailable
          maxAppointments := t.maxAppointments
          currentAppointments := t.currentAppointments
          availableSpots := t.maxAppointments - t.currentAppointments })

/-- Input of the create-appointment endpoint (`ICreateAppointment`),
restricted to the scheduling fields. -/
structure CreateInput where
  doctorId : Nat
  patientId : Nat
  appointmentDate : Nat
  startTime : String
  endTime : String
deriving Repr, DecidableEq

/-- Update payload of the update-appointment endpoint
(`IUpdateAppointment`), restricted to the scheduling fields. -/
structure UpdateData where
  appointmentDate : Option Nat
  startTime : Option String
  endTime : Option String
  status : Option AppointmentStatus
deriving Repr, DecidableEq

/-- `appointment.save()` validation relevant to this embedding: the
`pre("save")` hook requires the start time before the end time, and the
schema validator requires a date not in the past. (The hook clauses
about cancellation fields are identities on a freshly created
`scheduled` record.) -/
def appointmentWriteOk (today : Nat) (input : CreateInput) : Bool :=
  decide (parseTimeMin input.startTime < parseTimeMin input.endTime)
    && decide (today ≤ input.appointmentDate)

/-- The `scheduled` record that the commit phase of `createAppointment`
persists. -/
def mkBookedAppointment (st : DbState) (schedule : Schedule) (input : CreateInput) :
    Appointment :=
  { id := st.nextId, patient := input.patientId, doctor := input.doctorId
    schedule := schedule.id, appointmentDate := input.appointmentDate
    startTime := input.startTime, endTime := input.endTime
    status := .scheduled
    cancellationReason := none, cancelledBy := none, cancelledAt := none }

/-- The commit phase of `createAppointment` (controller lines 149-188):
save the appointment record first, then try to bump the matching slot
counter of the in-memory `schedule` document and save it, swallowing
any failure of that second write. `scheduleSaveFails` models the store
throwing on `schedule.save()` (the code catches it and continues). -/
def bookCommit (st : DbState) (schedule : Schedule) (today : Nat)
    (input : CreateInput) (scheduleSaveFails : Bool) :
    Except String Appointment × DbState :=
  if appointmentWriteOk today input then
    let appt : Appointment := mkBookedAppointment st schedule input
    let st1 : DbState :=
      { st with appointments := st.appointments ++ [appt], nextId := st.nextId + 1 }
    match schedule.timeSlots.find?
        (fun t => t.startTime == input.startTime && t.endTime == input.endTime) with
    | none => (.ok appt, st1)
    | some _ =>
        let slots' :=
          updateSlotAvailability
            (modifyFirst
              (fun t => t.startTime == input.startTime && t.endTime == input.endTime)
              (fun t => { t with currentAppointments := t.currentAppointments + 1 })
              schedule.timeSlots)
        let st2 :=
          if scheduleSaveFails then st1
          else trySaveExisting st1 { schedule with timeSlots := slots' }
        (.ok appt, st2)
  else (.error "Start time must be before end time", st)

/-- Availability check plus commit, the tail of `createAppointment`
once a schedule document is in hand. -/
def bookWithSchedule (st : DbState) (schedule : Schedule) (today : Nat)
    (input : CreateInput) (scheduleSaveFails : Bool) :
    Except String Appointment × DbState :=
  let check :=
    checkSlotAvailability st input.doctorId input.appointmentDate
      input.startTime input.endTime none (some input.patientId)
  if !check.available then (.error check.reason, st)
  else bookCommit st schedule today input scheduleSaveFails

/-- The `createAppointment` controller (hybrid booking path): date
window validation, best-effort horizon generation, lazy default
schedule creation, availability check, then the non-atomic
record-save / counter-increment commit. -/
def createAppointment (st : DbState) (today : Nat) (input : CreateInput)
    (scheduleSaveFails : Bool) : Except String Appointment × DbState :=
  if input.appointmentDate < today then
    (.error "Cannot book appointments for past dates. Please select today or a future date.", st)
  else if today + 90 < input.appointmentDate then
    (.error "Cannot book appointments more than 3 months in advance. Please select a date within the next 3 months.", st)
  else
    let st1 := (ensureFutureSchedules st input.doctorId today).1
    match findByDoctorAndDate st1 input.doctorId input.appointmentDate with
    | some schedule => bookWithSchedule st1 schedule today input scheduleSaveFails
    | none =>
        match createDefaultSchedule st1 input.doctorId input.appointmentDate with
        | (.ok schedule, st2) => bookWithSchedule st2 schedule today input scheduleSaveFails
        | (.error _, st2) =>
            (.error "Failed to create schedule. Please try again or contact support.", st2)

/-- The occupancy-release block shared by `cancelAppointment` and
`deleteAppointment`: find the originating schedule by id, find the slot
by the appointment times, decrement only when the counter is positive,
recompute availability and save, swallowing save failures. -/
def releaseSlot (st : DbState) (scheduleId : Nat) (startT endT : String) : DbState :=
  match findScheduleById st scheduleId with
  | none => st
  | some sch =>
      match sch.timeSlots.find? (fun t => t.startTime == startT && t.endTime == endT) with
      | none => st
      | some slot =>
          if 0 < slot.currentAppointments then
            trySaveExisting st
              { sch with
                timeSlots :=
                  updateSlotAvailability
                    (modifyFirst (fun t => t.startTime == startT && t.endTime == endT)
                      (fun t => { t with currentAppointments := t.currentAppointments - 1 })
                      sch.timeSlots) }
          else st

/-- The update object of `cancelAppointment`: status `cancelled` plus
the three cancellation stamps. -/
def cancelStamp (a : Appointment) (reason cb : String) (now : Nat) : Appointment :=
  { a with
    status := .cancelled
    cancellationReason := some reason
    cancelledBy := some cb
    cancelledAt := some now }

/-- The `cancelAppointment` controller: idempotency and terminal-state
guards, then a direct status update (`findByIdAndUpdate`, which runs no
save hook), then the occupancy release. -/
def cancelAppointment (st : DbState) (apptId : Nat) (reason cb : String) (now : Nat) :
    Except String Appointment × DbState :=
  match st.appointments.find? (fun a => a.id == apptId) with
  | none => (.error "Appointment not found", st)
  | some appt =>
      if appt.status = .cancelled then (.error "Appointment is already cancelled", st)
      else if appt.status = .completed then
        (.error "Cannot cancel completed appointment", st)
      else
        let updated : Appointment := cancelStamp appt reason cb now
        let st1 := replaceAppointment st updated
        let st2 := releaseSlot st1 appt.schedule appt.startTime appt.endTime
        (.ok updated, st2)

/-- The `updateAppointment` controller (also the reschedule path): when
a date or time changes, re-check availability of the target slot first
(excluding this appointment); then apply the field updates through
`findByIdAndUpdate` with `runValidators` (date not in the past). No
slot counter is touched on any path. -/
def updateAppointment (st : DbState) (today apptId : Nat) (upd : UpdateData) :
    Except String Appointment × DbState :=
  match st.appointments.find? (fun a => a.id == apptId) with
  | none => (.error "Appointment not found", st)
  | some appt =>
      let timeChange :=
        upd.appointmentDate.isSome || upd.startTime.isSome || upd.endTime.isSome
      let newDate := upd.appointmentDate.getD appt.appointmentDate
      let newStart := upd.startTime.getD appt.startTime
      let newEnd := upd.endTime.getD appt.endTime
      let check :=
        checkSlotAvailability st appt.doctor newDate newStart newEnd
          (some apptId) (some appt.patient)
      if timeChange && !check.available then (.error check.reason, st)
      else if (match upd.appointmentDate with
               | some d => decide (d < today)
               | none => false) then
        (.error "Appointment date cannot be in the past", st)
      else
        let updated : Appointment :=
          { appt with
            appointmentDate := newDate
            startTime := newStart
            endTime := newEnd
            status := upd.status.getD appt.status }
        (.ok updated, replaceAppointment st updated)

/-- The `deleteAppointment` controller (admin hard delete): release the
occupancy exactly as cancel does, then remove the record. -/
def deleteAppointment (st : DbState) (apptId : Nat) : Except String Unit × DbState :=
  match st.appointments.find? (fun a => a.id == apptId) with
  | none => (.error "Appointment not found", st)
  | some appt =>
      let st1 := releaseSlot st appt.schedule appt.startTime appt.endTime
      (.ok (),
        { st1 with appointments := st1.appointments.filter (fun a => !(a.id == apptId)) })

/-- The four state-changing operations of the booking engine. -/
inductive Op where
  | book (today : Nat) (input : CreateInput) (scheduleSaveFails : Bool)
  | cancel (apptId : Nat) (reason cb : String) (now : Nat)
  | reschedule (today apptId : Nat) (upd : UpdateData)
  | delete (apptId : Nat)
deriving Repr

/-- State effect of one operation. -/
def applyOp (st : DbState) : Op → DbState
  | .book today input fails => (createAppointment st today input fails).2
  | .cancel apptId reason cb now => (cancelAppointment st apptId reason cb now).2
  | .reschedule today apptId upd => (updateAppointment st today apptId upd).2
  | .delete apptId => (deleteAppointment st apptId).2

/-- Run a sequence of operations. -/
def runOps (st : DbState) (ops : List Op) : DbState :=
  ops.foldl applyOp st

/-- The spec invariant: every slot of every stored schedule satisfies
`0 ≤ occupied ≤ capacity`. -/
def slotsOkB (st : DbState) : Bool :=
  st.schedules.all (fun sch => sch.timeSlots.all slotBoundsB)

/-- Full store well-formedness: every stored schedule would pass its
own save validation. -/
def wfStateB (st : DbState) : Bool :=
  st.schedules.all (fun sch => scheduleWriteOk sch.timeSlots)

/-- The stored occupancy of the slot identified the way the controllers
identify it: schedule by id, slot by exact start and end time. -/
def slotOccupancy (st : DbState) (schedId : Nat) (startT endT : String) : Option Int :=
  (findScheduleById st schedId).bind (fun sch =>
    (sch.timeSlots.find? (fun t => t.startTime == startT && t.endTime == endT)).map
      (fun t => t.currentAppointments))

/-- Number of non-cancelled appointments currently booked into a slot
(the spec glossary notion of occupancy). -/
def activeInSlot (st : DbState) (schedId : Nat) (startT endT : String) : Nat :=
  (st.appointments.filter (fun a =>
    a.schedule == schedId && a.startTime == startT && a.endTime == endT
      && !(a.status == .cancelled))).length

/-- Spec-side invariant of claim C4: every slot counter equals the
number of non-cancelled appointments booked into that slot. -/
def countInvB (st : DbState) : Bool :=
  st.schedules.all (fun sch =>
    sch.timeSlots.all (fun t =>
      t.currentAppointments == (activeInSlot st sch.id t.startTime t.endTime : Int)))

/-- Whether an availability result is the duplicate-patient rejection. -/
def isDupReject (c : SlotCheck) : Bool :=
  !c.available && c.reason == duplicateMsg

/-- Claim C1 as stated (spec wording): booking commits the appointment
record and the occupancy increment together, so a successful book always
leaves the target slot counter incremented by one. -/
def claimC1Statement : Prop :=
  ∀ (st : DbState) (today : Nat) (input : CreateInput) (fails : Bool) (a : Appointment),
    (createAppointment st today input fails).1 = .ok a →
    slotOccupancy (createAppointment st today input fails).2 a.schedule a.startTime a.endTime
      = (slotOccupancy st a.schedule a.startTime a.endTime).map (fun c => c + 1)

/-- Claim C4 as stated (spec wording): counter-equals-active-count is
preserved by every sequence of booking-engine operations. -/
def claimC4Statement : Prop :=
  ∀ (st : DbState) (ops : List Op),
    countInvB st = true → countInvB (runOps st ops) = true

/-- Claim C5 as stated (spec wording): a successful reschedule releases
the old slot, so the occupancy of the slot the appointment previously
held drops by one. -/
def claimC5Statement : Prop :=
  ∀ (st : DbState) (today apptId : Nat) (upd : UpdateData) (a appt : Appointment),
    (upd.appointmentDate.isSome || upd.startTime.isSome || upd.endTime.isSome) = true →
    (updateAppointment st today apptId upd).1 = .ok a →
    st.appointments.find? (fun x => x.id == apptId) = some appt →
    slotOccupancy (updateAppointment st today apptId upd).2
        appt.schedule appt.startTime appt.endTime
      = (slotOccupancy st appt.schedule appt.startTime appt.endTime).map (fun c => c - 1)

/-- Claim C7 as stated (spec wording): the duplicate-patient rejection
fires exactly when the same patient holds a non-cancelled appointment
with that same doctor at that exact date and slot. -/
def claimC7Statement : Prop :=
  ∀ (st : DbState) (doctorId date : Nat) (startT endT : String)
    (excludeId : Option Nat) (pid : Nat),
    isDupReject (checkSlotAvailability st doctorId date startT endT excludeId (some pid))
        = true
      ↔ st.appointments.any (fun a =>
          a.patient == pid && a.doctor == doctorId && a.appointmentDate == date
            && a.startTime == startT && a.endTime == endT
            && !(a.status == .cancelled)
            && (match excludeId with | none => true | some x => !(a.id == x))) = true

/-- Claim C9 as stated (spec wording): the availability query returns
the empty list when no schedule exists for the doctor and date, and
also when the schedule that exists is inactive. -/
def claimC9Statement : Prop :=
  ∀ (st : DbState) (doctorId date : Nat),
    ((∀ sch ∈ st.schedules, ¬(sch.doctor = doctorId ∧ sch.date = date))
        ∨ (∃ sch, st.schedules.find? (fun x => x.doctor == doctorId && x.date == date)
              = some sch ∧ sch.isActive = false)) →
    getAvailableSlots st doctorId date = []

deriving instance DecidableEq for Except

/-- A default-shaped capacity-2 slot. -/
def slotCap2 : TimeSlot :=
  { startTime := "09:00", endTime := "10:00", isAvailable := true
    maxAppointments := 2, currentAppointments := 0 }

/-- A capacity-1 slot, the C3 scenario of the spec. -/
def slotCap1 : TimeSlot :=
  { startTime := "09:00", endTime := "10:00", isAvailable := true
    maxAppointments := 1, currentAppointments := 0 }

/-- The 10:00-11:00 capacity-2 slot used by the reschedule scenario. -/
def slotLate : TimeSlot :=
  { startTime := "10:00", endTime := "11:00", isAvailable := true
    maxAppointments := 2, currentAppointments := 0 }

/-- A store holding one bookable schedule for doctor 1 on day 101 plus
empty coverage records for days 102-107, so that the seven-day horizon
generation inside a booking finds every day already covered. -/
def stBook : DbState :=
  { schedules :=
      [ { id := 1, doctor := 1, date := 101, timeSlots := [slotCap2]
          isActive := true, notes := "" }
        , { id := 2, doctor := 1, date := 102, timeSlots := [], isActive := true, notes := "" }
        , { id := 3, doctor := 1, date := 103, timeSlots := [], isActive := true, notes := "" }
        , { id := 4, doctor := 1, date := 104, timeSlots := [], isActive := true, notes := "" }
        , { id := 5, doctor := 1, date := 105, timeSlots := [], isActive := true, notes := "" }
        , { id := 6, doctor := 1, date := 106, timeSlots := [], isActive := true, notes := "" }
        , { id := 7, doctor := 1, date := 107, timeSlots := [], isActive := true, notes := "" } ]
    appointments := []
    nextId := 10 }

/-- Booking request of patient 50 for the day-101 slot. -/
def bookInput : CreateInput :=
  { doctorId := 1, patientId := 50, appointmentDate := 101
    startTime := "09:00", endTime := "10:00" }

/-- The appointment record that booking `bookInput` against `stBook`
creates. -/
def bookedAppt : Appointment :=
  { id := 10, patient := 50, doctor := 1, schedule := 1, appointmentDate := 101
    startTime := "09:00", endTime := "10:00", status := .scheduled
    cancellationReason := none, cancelledBy := none, cancelledAt := none }

/-- Capacity-1 race scenario: one schedule, no appointments. -/
def stRace : DbState :=
  { schedules :=
      [ { id := 1, doctor := 1, date := 101, timeSlots := [slotCap1]
          isActive := true, notes := "" } ]
    appointments := []
    nextId := 10 }

/-- The schedule document both racing requests fetch before either
commits. -/
def schedRace : Schedule :=
  { id := 1, doctor := 1, date := 101, timeSlots := [slotCap1]
    isActive := true, notes := "" }

def raceInputA : CreateInput :=
  { doctorId := 1, patientId := 60, appointmentDate := 101
    startTime := "09:00", endTime := "10:00" }

def raceInputB : CreateInput :=
  { doctorId := 1, patientId := 61, appointmentDate := 101
    startTime := "09:00", endTime := "10:00" }

/-- A store whose slot counter (1) matches its single active
appointment; used to exercise the update path. -/
def stSync : DbState :=
  { schedules :=
      [ { id := 1, doctor := 1, date := 101
          timeSlots :=
            [ { startTime := "09:00", endTime := "10:00", isAvailable := true
                maxAppointments := 2, currentAppointments := 1 } ]
          isActive := true, notes := "" } ]
    appointments :=
      [ { id := 5, patient := 50, doctor := 1, schedule := 1, appointmentDate := 101
          startTime := "09:00", endTime := "10:00", status := .scheduled
          cancellationReason := none, cancelledBy := none, cancelledAt := none } ]
    nextId := 6 }

/-- Reschedule scenario: occupied 09:00 slot and an empty 10:00 slot. -/
def stResched : DbState :=
  { schedules :=
      [ { id := 1, doctor := 1, date := 101
          timeSlots :=
            [ { startTime := "09:00", endTime := "10:00", isAvailable := true
                maxAppointments := 2, currentAppointments := 1 }
              , slotLate ]
          isActive := true, notes := "" } ]
    appointments :=
      [ { id := 5, patient := 50, doctor := 1, schedule := 1, appointmentDate := 101
          startTime := "09:00", endTime := "10:00", status := .scheduled
          cancellationReason := none, cancelledBy := none, cancelledAt := none } ]
    nextId := 6 }

/-- Patient 50 already holds a scheduled appointment with doctor 2 at
day 101, 09:00-10:00; the availability check is run for doctor 1. -/
def stDup : DbState :=
  { schedules :=
      [ { id := 1, doctor := 1, date := 101, timeSlots := [slotCap2]
          isActive := true, notes := "" } ]
    appointments :=
      [ { id := 5, patient := 50, doctor := 2, schedule := 9, appointmentDate := 101
          startTime := "09:00", endTime := "10:00", status := .scheduled
          cancellationReason := none, cancelledBy := none, cancelledAt := none } ]
    nextId := 6 }

/-- One existing active schedule for generation idempotence. -/
def stGen : DbState :=
  { schedules :=
      [ { id := 1, doctor := 1, date := 101, timeSlots := [slotCap2]
          isActive := true, notes := "" } ]
    appointments := []
    nextId := 2 }

/-- The schedule stored in `stGen`. -/
def schedGen : Schedule :=
  { id := 1, doctor := 1, date := 101, timeSlots := [slotCap2]
    isActive := true, notes := "" }

/-- An inactive schedule with slots, for the availability query. -/
def stInactive : DbState :=
  { schedules :=
      [ { id := 1, doctor := 1, date := 101, timeSlots := [slotCap2]
          isActive := false, notes := "" } ]
    appointments := []
    nextId := 2 }

/-- The schedule stored in `stInactive`. -/
def schedInactive : Schedule :=
  { id := 1, doctor := 1, date := 101, timeSlots := [slotCap2]
    isActive := false, notes := "" }

/-- The empty store. -/
def stEmpty : DbState :=
  { schedules := [], appointments := [], nextId := 1 }

/-- The day-101 schedule stored in `stBook` (and fetched in-memory by
the booking handler). -/
def schedBook : Schedule :=
  { id := 1, doctor := 1, date := 101, timeSlots := [slotCap2]
    isActive := true, notes := "" }

/-- Appointment created by the first racing request. -/
def raceApptA : Appointment :=
  { id := 10, patient := 60, doctor := 1, schedule := 1, appointmentDate := 101
    startTime := "09:00", endTime := "10:00", status := .scheduled
    cancellationReason := none, cancelledBy := none, cancelledAt := none }

/-- Appointment created by the second racing request. -/
def raceApptB : Appointment :=
  { id := 11, patient := 61, doctor := 1, schedule := 1, appointmentDate := 101
    startTime := "09:00", endTime := "10:00", status := .scheduled
    cancellationReason := none, cancelledBy := none, cancelledAt := none }

/-- Both results of the C3 interleaving. -/
def raceState1 : DbState := (bookCommit stRace schedRace 100 raceInputA false).2

def raceState2 : DbState := (bookCommit raceState1 schedRace 100 raceInputB false).2

/-- C1 counterexample: booking `bookInput` against `stBook` with the
schedule write failing returns success, yet the slot occupancy is
unchanged, so record creation and the increment are not committed
together. -/
theorem c1_counterexample : ¬ claimC1Statement := by
  intro h
  have h1 := h stBook 100 bookInput true bookedAppt (by decide)
  exact absurd h1 (by decide)

/-- C4 counterexample: updating appointment 5 of `stSync` to status
`cancelled` through the update endpoint leaves the slot counter at 1
while the slot holds no non-cancelled appointment. -/
theorem c4_counterexample : ¬ claimC4Statement := by
  intro h
  have h1 := h stSync [.reschedule 100 5 ⟨none, none, none, some .cancelled⟩] (by decide)
  exact absurd h1 (by decide)

/-- C5 counterexample: rescheduling appointment 5 of `stResched` from
the 09:00 slot to the 10:00 slot succeeds but does not release the old
slot, whose occupancy stays at 1. -/
theorem c5_counterexample : ¬ claimC5Statement := by
  intro h
  have h1 :=
    h stResched 100 5 ⟨none, some "10:00", some "11:00", none⟩
      ⟨5, 50, 1, 1, 101, "10:00", "11:00", .scheduled, none, none, none⟩
      ⟨5, 50, 1, 1, 101, "09:00", "10:00", .scheduled, none, none, none⟩
      (by decide) (by decide) (by decide)
  exact absurd h1 (by decide)

/-- C7 counterexample: in `stDup` patient 50 holds an appointment with
doctor 2 only, yet the availability check for doctor 1 returns the
duplicate-patient rejection, because the duplicate query ignores the
doctor. -/
theorem c7_counterexample : ¬ claimC7Statement := by
  intro h
  have h1 := (h stDup 1 101 "09:00" "10:00" none 50).mp (by decide)
  exact absurd h1 (by decide)

/-- C9 counterexample: `stInactive` holds an inactive schedule for
doctor 1 on day 101, yet the availability query returns its slot list
rather than the empty list. -/
theorem c9_counterexample : ¬ claimC9Statement := by
  intro h
  have h1 := h stInactive 1 101 (Or.inr ⟨schedInactive, by decide, by decide⟩)
  exact absurd h1 (by decide)

/-- C3: the check-then-commit structure of `createAppointment` lets two
interleaved bookings for the capacity-1 slot of `stRace` both observe
the slot as available, both commit their appointment records (so the
slot ends up with two active appointments against capacity 1), and the
second schedule save silently overwrites the first, leaving the stored
counter at 1. -/
theorem c3_race_both_commit :
    (checkSlotAvailability stRace 1 101 "09:00" "10:00" none (some 60)).available = true
  ∧ (checkSlotAvailability stRace 1 101 "09:00" "10:00" none (some 61)).available = true
  ∧ (bookCommit stRace schedRace 100 raceInputA false).1 = .ok raceApptA
  ∧ (bookCommit raceState1 schedRace 100 raceInputB false).1 = .ok raceApptB
  ∧ activeInSlot raceState2 1 "09:00" "10:00" = 2
  ∧ slotOccupancy raceState2 1 "09:00" "10:00" = some 1
  ∧ (findScheduleById stRace 1).map
      (fun sch => sch.timeSlots.map (fun t => t.maxAppointments)) = some [1] := by
  decide

/-- C1 amended: when the schedule write of the commit phase fails, the
appointment record still persists and the booking still returns
success, while the store of schedules (hence every occupancy counter)
is exactly what it was: the increment is lost, not rolled back. -/
theorem c1_amended_no_rollback (st : DbState) (schedule : Schedule) (today : Nat)
    (input : CreateInput) (h : appointmentWriteOk today input = true) :
    bookCommit st schedule today input true
      = (.ok (mkBookedAppointment st schedule input),
          { st with
            appointments := st.appointments ++ [mkBookedAppointment st schedule input]
            nextId := st.nextId + 1 }) := by
  unfold bookCommit
  rw [h]
  cases hfind : schedule.timeSlots.find?
      (fun t => t.startTime == input.startTime && t.endTime == input.endTime) with
  | none => simp
  | some s => simp

/-- Witness for the C1 amended theorem at the `stBook` scenario. -/
theorem c1_amended_no_rollback_witness :
    bookCommit stBook schedBook 100 bookInput true
      = (.ok (mkBookedAppointment stBook schedBook bookInput),
          { stBook with
            appointments := stBook.appointments ++ [mkBookedAppointment stBook schedBook bookInput]
            nextId := stBook.nextId + 1 }) :=
  c1_amended_no_rollback stBook schedBook 100 bookInput (by decide)

/-- Shared shape of `updateAppointment`: it either leaves the store
untouched (every rejection path) or replaces just the appointment
record, never a schedule. -/
theorem updateAppointment_cases (st : DbState) (today apptId : Nat) (upd : UpdateData) :
    (updateAppointment st today apptId upd).2 = st
  ∨ ∃ a, updateAppointment st today apptId upd = (.ok a, replaceAppointment st a) := by
  unfold updateAppointment
  cases hf : st.appointments.find? (fun a => a.id == apptId) with
  | none => exact Or.inl rfl
  | some appt =>
      simp only []
      split
      · exact Or.inl rfl
      · split
        · exact Or.inl rfl
        · exact Or.inr ⟨_, rfl⟩

/-- C4 amended: the general update endpoint adjusts no slot counter;
even when it changes an appointment's status or time slot, every
schedule (hence every slot occupancy) is left exactly as it was. -/
theorem c4_amended_update_leaves_counters (st : DbState) (today apptId : Nat)
    (upd : UpdateData) :
    (updateAppointment st today apptId upd).2.schedules = st.schedules
  ∧ ∀ schedId startT endT,
      slotOccupancy (updateAppointment st today apptId upd).2 schedId startT endT
        = slotOccupancy st schedId startT endT := by
  have hsch : (updateAppointment st today apptId upd).2.schedules = st.schedules := by
    rcases updateAppointment_cases st today apptId upd with h | ⟨a, h⟩
    · rw [h]
    · rw [h]; rfl
  refine ⟨hsch, fun schedId startT endT => ?_⟩
  unfold slotOccupancy findScheduleById
  rw [hsch]

/-- C5 amended: the reschedule path of `updateAppointment` checks the
new slot before writing anything, so a rejected reschedule leaves the
store exactly as it was; a successful one updates only the appointment
record and moves no occupancy (neither release of the old slot nor
increment of the new one). -/
theorem c5_amended_reschedule (st : DbState) (today apptId : Nat) (upd : UpdateData) :
    (updateAppointment st today apptId upd).2.schedules = st.schedules
  ∧ (∀ e, (updateAppointment st today apptId upd).1 = .error e →
      (updateAppointment st today apptId upd).2 = st) := by
  rcases updateAppointment_cases st today apptId upd with h | ⟨a, h⟩
  · exact ⟨by rw [h], fun e _ => h⟩
  · refine ⟨by rw [h]; rfl, fun e he => ?_⟩
    rw [h] at he
    exact absurd he (by simp)

/-- Witness for the C5 amended theorem: a reschedule of a nonexistent
appointment in `stResched` is rejected and leaves the store unchanged,
and the schedules are untouched. -/
theorem c5_amended_reschedule_witness :
    (updateAppointment stResched 100 99 ⟨none, some "10:00", some "11:00", none⟩).2.schedules
        = stResched.schedules
  ∧ (updateAppointment stResched 100 99 ⟨none, some "10:00", some "11:00", none⟩).2
        = stResched :=
  ⟨(c5_amended_reschedule stResched 100 99 ⟨none, some "10:00", some "11:00", none⟩).1,
    (c5_amended_reschedule stResched 100 99 ⟨none, some "10:00", some "11:00", none⟩).2
      "Appointment not found" (by decide)⟩

/-- C9 amended: the availability query returns the empty list exactly
when no schedule record (active or not) exists for the doctor and
date; when one exists, active or inactive, it returns one entry per
slot carrying capacity, occupancy and
`availableSpots = maxAppointments - currentAppointments`. -/
theorem c9_amended_available_slots (st : DbState) (doctorId date : Nat) :
    (st.schedules.find? (fun x => x.doctor == doctorId && x.date == date) = none →
      getAvailableSlots st doctorId date = [])
  ∧ (∀ sch,
      st.schedules.find? (fun x => x.doctor == doctorId && x.date == date) = some sch →
      getAvailableSlots st doctorId date
        = sch.timeSlots.map (fun t =>
            { startTime := t.startTime
              endTime := t.endTime
              isAvailable := t.isAvailable
              maxAppointments := t.maxAppointments
              currentAppointments := t.currentAppointments
              availableSpots := t.maxAppointments - t.currentAppointments })) := by
  constructor
  · intro h
    unfold getAvailableSlots
    rw [h]
  · intro sch h
    unfold getAvailableSlots
    rw [h]

/-- Witness for the C9 amended theorem: the empty store yields the
empty list, and the inactive schedule of `stInactive` yields its slots
with their computed remaining capacity. -/
theorem c9_amended_available_slots_witness :
    getAvailableSlots stEmpty 1 101 = []
  ∧ getAvailableSlots stInactive 1 101
      = schedInactive.timeSlots.map (fun t =>
          { startTime := t.startTime
            endTime := t.endTime
            isAvailable := t.isAvailable
            maxAppointments := t.maxAppointments
            currentAppointments := t.currentAppointments
            availableSpots := t.maxAppointments - t.currentAppointments }) :=
  ⟨(c9_amended_available_slots stEmpty 1 101).1 (by decide),
    (c9_amended_available_slots stInactive 1 101).2 schedInactive (by decide)⟩

/-- If no schedule record at all exists for the pair, the active lookup
fails too. -/
theorem findByDoctorAndDate_eq_none (st : DbState) (doctorId date : Nat)
    (h : st.schedules.any (fun x => x.doctor == doctorId && x.date == date) = false) :
    findByDoctorAndDate st doctorId date = none := by
  unfold findByDoctorAndDate
  rw [List.find?_eq_none]
  intro x hx hpx
  have hqx := List.any_eq_false.mp h x hx
  simp only [Bool.and_eq_true] at hpx
  exact hqx (by simp only [Bool.and_eq_true]; exact hpx.1)

/-- Searching a list extended with a matching element, none of whose
predecessors match, finds that element. -/
theorem find?_append_singleton (l : List Schedule) (p : Schedule → Bool) (x : Schedule)
    (hl : ∀ y ∈ l, ¬ p y = true) (hx : p x = true) :
    (l ++ [x]).find? p = some x := by
  rw [List.find?_append, List.find?_eq_none.mpr hl]
  simp [List.find?, hx]

/-- C10: when no calendar record exists for the doctor and date, the
lazy default creation inserts a schedule whose slot list is exactly
eight one-hour slots from 09:00 to 17:00, each with capacity 2, zero
occupancy and available; the horizon generator under default
preferences produces the same list. -/
theorem c10_lazy_default_calendar (st : DbState) (doctorId date : Nat)
    (h : st.schedules.any (fun x => x.doctor == doctorId && x.date == date) = false) :
    createDefaultSchedule st doctorId date
      = (.ok { defSchedule doctorId date with id := st.nextId },
          { st with
            schedules := st.schedules ++ [{ defSchedule doctorId date with id := st.nextId }]
            nextId := st.nextId + 1 })
  ∧ ({ defSchedule doctorId date with id := st.nextId } : Schedule).timeSlots
      = defaultScheduleTimeSlots
  ∧ defaultScheduleTimeSlots
      = [ ⟨"09:00", "10:00", true, 2, 0⟩, ⟨"10:00", "11:00", true, 2, 0⟩,
          ⟨"11:00", "12:00", true, 2, 0⟩, ⟨"12:00", "13:00", true, 2, 0⟩,
          ⟨"13:00", "14:00", true, 2, 0⟩, ⟨"14:00", "15:00", true, 2, 0⟩,
          ⟨"15:00", "16:00", true, 2, 0⟩, ⟨"16:00", "17:00", true, 2, 0⟩ ]
  ∧ generateTimeSlots defaultPreferences = defaultScheduleTimeSlots := by
  have hfind := findByDoctorAndDate_eq_none st doctorId date h
  have hw : scheduleWriteOk defaultScheduleTimeSlots = true := by decide
  refine ⟨?_, rfl, by decide, by decide⟩
  unfold createDefaultSchedule
  rw [hfind]
  unfold saveNew
  simp only [defSchedule] at h ⊢
  rw [h, hw]
  simp

/-- Witness for C10 at the empty store. -/
theorem c10_lazy_default_calendar_witness :
    createDefaultSchedule stEmpty 1 101
      = (.ok { defSchedule 1 101 with id := stEmpty.nextId },
          { stEmpty with
            schedules := stEmpty.schedules ++ [{ defSchedule 1 101 with id := stEmpty.nextId }]
            nextId := stEmpty.nextId + 1 })
  ∧ ({ defSchedule 1 101 with id := stEmpty.nextId } : Schedule).timeSlots
      = defaultScheduleTimeSlots
  ∧ defaultScheduleTimeSlots
      = [ ⟨"09:00", "10:00", true, 2, 0⟩, ⟨"10:00", "11:00", true, 2, 0⟩,
          ⟨"11:00", "12:00", true, 2, 0⟩, ⟨"12:00", "13:00", true, 2, 0⟩,
          ⟨"13:00", "14:00", true, 2, 0⟩, ⟨"14:00", "15:00", true, 2, 0⟩,
          ⟨"15:00", "16:00", true, 2, 0⟩, ⟨"16:00", "17:00", true, 2, 0⟩ ]
  ∧ generateTimeSlots defaultPreferences = defaultScheduleTimeSlots :=
  c10_lazy_default_calendar stEmpty 1 101 (by decide)

/-- C8: schedule generation is idempotent. Running
`createScheduleForDate` a second time for the same doctor and date
leaves the store exactly as after the first run (no duplicate calendar,
no occupancy reset), and when an active calendar already exists both
the generator and the lazy default creation return it with the store
unchanged. -/
theorem c8_generation_idempotent (st : DbState) (doctorId date : Nat) :
    (createScheduleForDate (createScheduleForDate st doctorId date).2 doctorId date).2
        = (createScheduleForDate st doctorId date).2
  ∧ (∀ s, findByDoctorAndDate st doctorId date = some s →
        createScheduleForDate st doctorId date = (.ok s, st)
      ∧ createDefaultSchedule st doctorId date = (.ok s, st)) := by
  constructor
  · cases hf : findByDoctorAndDate st doctorId date with
    | some s => simp only [createScheduleForDate, hf]
    | none =>
        rcases hsn : saveNew st (genSchedule doctorId date) with ⟨r, st1⟩
        have hmain : createScheduleForDate st doctorId date = (r, st1) := by
          unfold createScheduleForDate
          rw [hf, hsn]
        rw [hmain]
        unfold saveNew at hsn
        split at hsn
        next hany =>
          injection hsn with h1 h2
          subst h2
          simp only [createScheduleForDate, hf]
          unfold saveNew
          rw [hany]
          simp
        next hany =>
          split at hsn
          next hw =>
            injection hsn with h1 h2
            subst h2
            have hfind1 :
                findByDoctorAndDate
                  { st with
                    schedules := st.schedules ++ [{ genSchedule doctorId date with id := st.nextId }]
                    nextId := st.nextId + 1 } doctorId date
                  = some { genSchedule doctorId date with id := st.nextId } := by
              unfold findByDoctorAndDate
              apply find?_append_singleton
              · intro y hy hpy
                have hqy := List.any_eq_false.mp (Bool.not_eq_true _ ▸ hany) y hy
                simp only [Bool.and_eq_true] at hpy
                exact hqy (by simp only [genSchedule, Bool.and_eq_true]; exact hpy.1)
              · simp [genSchedule]
            simp only [createScheduleForDate, hfind1]
          next hw =>
            injection hsn with h1 h2
            subst h2
            simp only [createScheduleForDate, hf]
            unfold saveNew
            rw [Bool.eq_false_iff.mpr hany]
            rw [Bool.eq_false_iff.mpr hw]
            simp
  · intro s hs
    constructor
    · unfold createScheduleForDate
      rw [hs]
    · unfold createDefaultSchedule
      rw [hs]

/-- Witness for C8 at `stGen`, whose active day-101 schedule is
returned unchanged by both creation paths, and idempotence at the
empty store. -/
theorem c8_generation_idempotent_witness :
    (createScheduleForDate (createScheduleForDate stEmpty 1 101).2 1 101).2
        = (createScheduleForDate stEmpty 1 101).2
  ∧ createScheduleForDate stGen 1 101 = (.ok schedGen, stGen)
  ∧ createDefaultSchedule stGen 1 101 = (.ok schedGen, stGen) :=
  ⟨(c8_generation_idempotent stEmpty 1 101).1,
    ((c8_generation_idempotent stGen 1 101).2 schedGen (by decide)).1,
    ((c8_generation_idempotent stGen 1 101).2 schedGen (by decide)).2⟩

/-- C7 amended: once the schedule exists, the requested slot exists and
is open, the duplicate rejection of `checkSlotAvailability` fires
exactly when the patient holds an appointment with status in
{scheduled, confirmed, in_progress} at that exact date, start and end
time, other than the excluded one — for any doctor whatsoever, and
cancelled (or completed or no-show) appointments never trigger it. -/
theorem c7_amended_duplicate_rule (st : DbState) (doctorId date : Nat)
    (startT endT : String) (excludeId : Option Nat) (pid : Nat)
    (sch : Schedule) (slot : TimeSlot)
    (hsched : findByDoctorAndDate st doctorId date = some sch)
    (hslot : sch.timeSlots.find?
        (fun t => t.startTime == startT && t.endTime == endT) = some slot)
    (havail : slot.isAvailable = true) :
    isDupReject (checkSlotAvailability st doctorId date startT endT excludeId (some pid))
        = true
      ↔ hasPatientConflict st pid date startT endT excludeId = true := by
  cases hdup : hasPatientConflict st pid date startT endT excludeId with
  | true =>
      have hres : checkSlotAvailability st doctorId date startT endT excludeId (some pid)
          = { available := false, reason := duplicateMsg
              currentAppointments := some 0, maxAppointments := some 1 } := by
        unfold checkSlotAvailability
        rw [hsched]
        simp [hslot, havail, hdup]
      rw [hres]
      exact iff_of_true (by decide) rfl
  | false =>
      have hres : isDupReject
          (checkSlotAvailability st doctorId date startT endT excludeId (some pid))
          = false := by
        unfold checkSlotAvailability
        rw [hsched]
        simp only [hslot, havail, hdup, isDupReject]
        simp only [Bool.not_true, Bool.false_eq_true, if_false]
        rcases Bool.dichotomy (decide
            ((countSlotAppointments st doctorId date startT endT excludeId : Int) <
              if slot.maxAppointments == 0 then 1 else slot.maxAppointments)) with h2 | h2 <;>
          rw [h2] <;> decide
      rw [hres]

/-- Witness for the C7 amended theorem at `stDup`: with the doctor-1
schedule and its open slot, the rejection fires and the doctor-free
conflict predicate holds. -/
theorem c7_amended_duplicate_rule_witness :
    isDupReject (checkSlotAvailability stDup 1 101 "09:00" "10:00" none (some 50)) = true
      ↔ hasPatientConflict stDup 50 101 "09:00" "10:00" none = true :=
  c7_amended_duplicate_rule stDup 1 101 "09:00" "10:00" none 50 schedGen slotCap2
    (by decide) (by decide) (by decide)

/-- A schedule document that passes save validation has all its slot
counters within bounds. -/
theorem slotBounds_of_writeOk {slots : List TimeSlot}
    (h : scheduleWriteOk slots = true) : slots.all slotBoundsB = true := by
  simp only [scheduleWriteOk, List.all_eq_true] at h
  simp only [List.all_eq_true]
  intro t ht
  have h2 := h t ht
  simp only [Bool.and_eq_true] at h2
  exact h2.1.1.1

theorem slotsOk_replace (st : DbState) (sch : Schedule)
    (hst : slotsOkB st = true) (hsch : sch.timeSlots.all slotBoundsB = true) :
    slotsOkB (replaceSchedule st sch) = true := by
  simp only [slotsOkB, replaceSchedule, List.all_eq_true] at hst ⊢
  intro x hx
  obtain ⟨y, hy, rfl⟩ := List.mem_map.mp hx
  split
  · exact List.all_eq_true.mp hsch
  · exact hst y hy

theorem slotsOk_trySave (st : DbState) (sch : Schedule) (hst : slotsOkB st = true) :
    slotsOkB (trySaveExisting st sch) = true := by
  unfold trySaveExisting
  split
  · next hw => exact slotsOk_replace st sch hst (slotBounds_of_writeOk hw)
  · exact hst

theorem slotsOk_saveNew (st : DbState) (sch : Schedule) (hst : slotsOkB st = true) :
    slotsOkB (saveNew st sch).2 = true := by
  unfold saveNew
  split
  · exact hst
  · split
    · next hw =>
        simp only [slotsOkB, List.all_append, Bool.and_eq_true]
        refine ⟨hst, ?_⟩
        simp only [List.all_cons, List.all_nil, Bool.and_true]
        exact slotBounds_of_writeOk hw
    · exact hst

theorem slotsOk_createScheduleForDate (st : DbState) (d dt : Nat)
    (hst : slotsOkB st = true) :
    slotsOkB (createScheduleForDate st d dt).2 = true := by
  unfold createScheduleForDate
  cases hf : findByDoctorAndDate st d dt with
  | some s => exact hst
  | none => exact slotsOk_saveNew st _ hst

theorem slotsOk_createDefaultSchedule (st : DbState) (d dt : Nat)
    (hst : slotsOkB st = true) :
    slotsOkB (createDefaultSchedule st d dt).2 = true := by
  unfold createDefaultSchedule
  cases hf : findByDoctorAndDate st d dt with
  | some s => exact hst
  | none => exact slotsOk_saveNew st _ hst

theorem slotsOk_ensureLoop (d today : Nat) (ex : List Nat) :
    ∀ (l : List Nat) (st : DbState), slotsOkB st = true →
      slotsOkB (ensureLoop d today ex st l).1 = true := by
  intro l
  induction l with
  | nil => intro st hst; exact hst
  | cons i is ih =>
      intro st hst
      unfold ensureLoop
      dsimp only
      split
      · exact ih st hst
      · split
        · rcases hc : createScheduleForDate st d (today + i) with ⟨r, st1⟩
          have h1 : slotsOkB st1 = true := by
            have h2 := slotsOk_createScheduleForDate st d (today + i) hst
            rw [hc] at h2
            exact h2
          cases r with
          | ok s => exact ih st1 h1
          | error e => exact h1
        · exact ih st hst

theorem slotsOk_ensureFutureSchedules (st : DbState) (d today : Nat)
    (hst : slotsOkB st = true) :
    slotsOkB (ensureFutureSchedules st d today).1 = true :=
  slotsOk_ensureLoop d today _ _ st hst

theorem slotsOk_bookCommit (st : DbState) (sched : Schedule) (today : Nat)
    (input : CreateInput) (f : Bool) (hst : slotsOkB st = true) :
    slotsOkB (bookCommit st sched today input f).2 = true := by
  unfold bookCommit
  dsimp only
  split
  · cases hf : sched.timeSlots.find?
        (fun t => t.startTime == input.startTime && t.endTime == input.endTime) with
    | none => exact hst
    | some s =>
        cases f with
        | true => exact hst
        | false => exact slotsOk_trySave _ _ hst
  · exact hst

theorem slotsOk_bookWithSchedule (st : DbState) (sched : Schedule) (today : Nat)
    (input : CreateInput) (f : Bool) (hst : slotsOkB st = true) :
    slotsOkB (bookWithSchedule st sched today input f).2 = true := by
  unfold bookWithSchedule
  dsimp only
  split
  · exact hst
  · exact slotsOk_bookCommit st sched today input f hst

theorem slotsOk_createAppointment (st : DbState) (today : Nat) (input : CreateInput)
    (f : Bool) (hst : slotsOkB st = true) :
    slotsOkB (createAppointment st today input f).2 = true := by
  unfold createAppointment
  dsimp only
  split
  · exact hst
  · split
    · exact hst
    · have h1 := slotsOk_ensureFutureSchedules st input.doctorId today hst
      cases hf : findByDoctorAndDate (ensureFutureSchedules st input.doctorId today).1
          input.doctorId input.appointmentDate with
      | some sched => exact slotsOk_bookWithSchedule _ sched today input f h1
      | none =>
          rcases hc : createDefaultSchedule (ensureFutureSchedules st input.doctorId today).1
              input.doctorId input.appointmentDate with ⟨r, st2⟩
          have h2 : slotsOkB st2 = true := by
            have h3 := slotsOk_createDefaultSchedule
              (ensureFutureSchedules st input.doctorId today).1
              input.doctorId input.appointmentDate h1
            rw [hc] at h3
            exact h3
          cases r with
          | ok sched => exact slotsOk_bookWithSchedule st2 sched today input f h2
          | error e => exact h2

theorem slotsOk_releaseSlot (st : DbState) (schedId : Nat) (s e : String)
    (hst : slotsOkB st = true) :
    slotsOkB (releaseSlot st schedId s e) = true := by
  unfold releaseSlot
  cases hf : findScheduleById st schedId with
  | none => exact hst
  | some sch =>
      dsimp only
      cases hs : sch.timeSlots.find? (fun t => t.startTime == s && t.endTime == e) with
      | none => exact hst
      | some slot =>
          dsimp only
          split
          · exact slotsOk_trySave _ _ hst
          · exact hst

theorem slotsOk_cancelAppointment (st : DbState) (apptId : Nat) (reason cb : String)
    (now : Nat) (hst : slotsOkB st = true) :
    slotsOkB (cancelAppointment st apptId reason cb now).2 = true := by
  unfold cancelAppointment
  cases hf : st.appointments.find? (fun a => a.id == apptId) with
  | none => exact hst
  | some appt =>
      dsimp only
      split
      · exact hst
      · split
        · exact hst
        · exact slotsOk_releaseSlot _ _ _ _ hst

theorem slotsOk_updateAppointment (st : DbState) (today apptId : Nat) (upd : UpdateData)
    (hst : slotsOkB st = true) :
    slotsOkB (updateAppointment st today apptId upd).2 = true := by
  rcases updateAppointment_cases st today apptId upd with h | ⟨a, h⟩
  · rw [h]; exact hst
  · rw [h]; exact hst

theorem slotsOk_deleteAppointment (st : DbState) (apptId : Nat)
    (hst : slotsOkB st = true) :
    slotsOkB (deleteAppointment st apptId).2 = true := by
  unfold deleteAppointment
  cases hf : st.appointments.find? (fun a => a.id == apptId) with
  | none => exact hst
  | some appt =>
      dsimp only
      exact slotsOk_releaseSlot _ _ _ _ hst

/-- C2: after any sequence of book, cancel, reschedule and delete
operations starting from a store whose slots are within bounds, every
slot of every schedule still satisfies
`0 ≤ currentAppointments ≤ maxAppointments`. -/
theorem c2_slot_bounds_invariant (st : DbState) (ops : List Op)
    (hst : slotsOkB st = true) : slotsOkB (runOps st ops) = true := by
  induction ops generalizing st with
  | nil => exact hst
  | cons op ops ih =>
      have h1 : slotsOkB (applyOp st op) = true := by
        cases op with
        | book today input f => exact slotsOk_createAppointment st today input f hst
        | cancel apptId reason cb now =>
            exact slotsOk_cancelAppointment st apptId reason cb now hst
        | reschedule today apptId upd =>
            exact slotsOk_updateAppointment st today apptId upd hst
        | delete apptId => exact slotsOk_deleteAppointment st apptId hst
      exact ih (applyOp st op) h1

/-- Witness for C2: a book followed by a cancel against `stBook` keeps
every counter within bounds. -/
theorem c2_slot_bounds_invariant_witness :
    slotsOkB stBook = true
  ∧ slotsOkB (runOps stBook
      [.book 100 bookInput false, .cancel 10 "changed plans" "patient" 555]) = true :=
  ⟨by decide,
    c2_slot_bounds_invariant stBook
      [.book 100 bookInput false, .cancel 10 "changed plans" "patient" 555] (by decide)⟩

/-- Recomputing availability flags does not affect save validation. -/
theorem writeOk_updateAvail (l : List TimeSlot) :
    scheduleWriteOk (updateSlotAvailability l) = scheduleWriteOk l := by
  unfold scheduleWriteOk updateSlotAvailability
  rw [List.all_map]
  rfl

/-- Recomputing availability flags commutes with the by-times lookup. -/
theorem find?_time_updateAvail (s e : String) (l : List TimeSlot) :
    (updateSlotAvailability l).find? (fun t => t.startTime == s && t.endTime == e)
      = (l.find? (fun t => t.startTime == s && t.endTime == e)).map
          (fun t => { t with isAvailable := decide (t.currentAppointments < t.maxAppointments) }) := by
  unfold updateSlotAvailability
  rw [List.find?_map]
  rfl

/-- Decrementing the first slot matching the times keeps it the first
match, with its counter one lower. -/
theorem find?_time_modifyFirst_dec (s e : String) (l : List TimeSlot) (t0 : TimeSlot)
    (h : l.find? (fun t => t.startTime == s && t.endTime == e) = some t0) :
    (modifyFirst (fun t => t.startTime == s && t.endTime == e)
        (fun t => { t with currentAppointments := t.currentAppointments - 1 }) l).find?
        (fun t => t.startTime == s && t.endTime == e)
      = some { t0 with currentAppointments := t0.currentAppointments - 1 } := by
  induction l with
  | nil => simp [List.find?] at h
  | cons a t ih =>
      cases hpa : (a.startTime == s && a.endTime == e) with
      | true =>
          have ha : a = t0 := by
            simp only [List.find?, hpa] at h
            exact Option.some.inj h
          subst ha
          simp [modifyFirst, hpa, List.find?]
      | false =>
          have h2 : t.find? (fun t => t.startTime == s && t.endTime == e) = some t0 := by
            simp only [List.find?, hpa] at h
            exact h
          simp [modifyFirst, hpa, List.find?, ih h2]

/-- Decrementing the positive counter of the first matching slot of a
valid slot list keeps the list valid. -/
theorem writeOk_modifyFirst_dec (s e : String) (l : List TimeSlot) (t0 : TimeSlot)
    (hall : scheduleWriteOk l = true)
    (h : l.find? (fun t => t.startTime == s && t.endTime == e) = some t0)
    (hc : 0 < t0.currentAppointments) :
    scheduleWriteOk (modifyFirst (fun t => t.startTime == s && t.endTime == e)
        (fun t => { t with currentAppointments := t.currentAppointments - 1 }) l) = true := by
  induction l with
  | nil => simp [List.find?] at h
  | cons a t ih =>
      have hall2 := hall
      simp only [scheduleWriteOk, List.all_cons, Bool.and_eq_true] at hall2
      obtain ⟨ha, ht⟩ := hall2
      cases hpa : (a.startTime == s && a.endTime == e) with
      | true =>
          have ha0 : a = t0 := by
            simp only [List.find?, hpa] at h
            exact Option.some.inj h
          subst ha0
          simp only [modifyFirst, hpa, if_true]
          simp only [scheduleWriteOk, List.all_cons, Bool.and_eq_true]
          refine ⟨?_, ht⟩
          simp only [slotBoundsB, Bool.and_eq_true, decide_eq_true_eq] at ha ⊢
          obtain ⟨⟨⟨⟨h1, h2⟩, h3⟩, h4⟩, h5⟩ := ha
          exact ⟨⟨⟨⟨by omega, by omega⟩, h3⟩, h4⟩, h5⟩
      | false =>
          have h2 : t.find? (fun t => t.startTime == s && t.endTime == e) = some t0 := by
            simp only [List.find?, hpa] at h
            exact h
          simp only [modifyFirst, hpa, Bool.false_eq_true, if_false]
          simp only [scheduleWriteOk, List.all_cons, Bool.and_eq_true]
          exact ⟨ha, ih ht h2⟩

/-- Replacing the stored schedule found by id makes the replacement the
schedule found by id. -/
theorem find?_id_after_replace (l : List Schedule) (i : Nat) (sch sch2 : Schedule)
    (h : l.find? (fun x => x.id == i) = some sch) (hid : sch2.id = sch.id) :
    (l.map (fun x => if x.id == sch.id then sch2 else x)).find? (fun x => x.id == i)
      = some sch2 := by
  have hi : (sch.id == i) = true := by
    have h2 := List.find?_some h
    exact h2
  induction l with
  | nil => simp [List.find?] at h
  | cons a t ih =>
      cases hpa : (a.id == i) with
      | true =>
          have ha : a = sch := by
            simp only [List.find?, hpa] at h
            exact Option.some.inj h
          subst ha
          have hc2 : (sch2.id == i) = true := by
            rw [hid]
            exact hpa
          simp [List.find?, hc2]
      | false =>
          have h2 : t.find? (fun x => x.id == i) = some sch := by
            simp only [List.find?, hpa] at h
            exact h
          have hne : (a.id == sch.id) = false := by
            rw [show sch.id = i by simpa using hi]
            exact hpa
          simp only [List.map_cons]
          rw [show (if (a.id == sch.id) = true then sch2 else a) = a from if_neg (by simp [hne])]
          rw [List.find?_cons_of_neg _ (by simp [hpa])]
          exact ih h2

/-- The occupancy-release block never touches the appointment list. -/
theorem releaseSlot_appointments (st : DbState) (schedId : Nat) (s e : String) :
    (releaseSlot st schedId s e).appointments = st.appointments := by
  unfold releaseSlot
  cases hf : findScheduleById st schedId with
  | none => rfl
  | some sch =>
      dsimp only
      cases hs : sch.timeSlots.find? (fun t => t.startTime == s && t.endTime == e) with
      | none => rfl
      | some slot =>
          dsimp only
          split
          · unfold trySaveExisting
            split
            · rfl
            · rfl
          · rfl

/-- C6: cancel rejects with an error and changes nothing when the
appointment is already cancelled or completed; otherwise it returns the
record re-stamped to `cancelled` with reason, canceller and timestamp,
stores exactly that record, and sets the originating slot occupancy to
its old value decremented and clamped at 0. -/
theorem c6_cancel_behavior (st : DbState) (apptId : Nat) (reason cb : String) (now : Nat)
    (a : Appointment)
    (hw : wfStateB st = true)
    (hfind : st.appointments.find? (fun x => x.id == apptId) = some a) :
    ((a.status = .cancelled ∨ a.status = .completed) →
        (cancelAppointment st apptId reason cb now).2 = st
      ∧ ∃ e, (cancelAppointment st apptId reason cb now).1 = .error e)
  ∧ (a.status ≠ .cancelled → a.status ≠ .completed →
      ∀ sch slot,
        findScheduleById st a.schedule = some sch →
        sch.timeSlots.find?
            (fun t => t.startTime == a.startTime && t.endTime == a.endTime) = some slot →
        (cancelAppointment st apptId reason cb now).1
            = .ok (cancelStamp a reason cb now)
        ∧ (cancelAppointment st apptId reason cb now).2.appointments
            = st.appointments.map (fun x =>
                if x.id == a.id then cancelStamp a reason cb now else x)
        ∧ slotOccupancy (cancelAppointment st apptId reason cb now).2
              a.schedule a.startTime a.endTime
            = some (max 0 (slot.currentAppointments - 1))) := by
  constructor
  · rintro (h | h)
    · have hrun : cancelAppointment st apptId reason cb now
          = (.error "Appointment is already cancelled", st) := by
        unfold cancelAppointment
        rw [hfind]
        dsimp only
        rw [if_pos h]
      rw [hrun]
      exact ⟨rfl, _, rfl⟩
    · have hrun : cancelAppointment st apptId reason cb now
          = (.error "Cannot cancel completed appointment", st) := by
        unfold cancelAppointment
        rw [hfind]
        dsimp only
        rw [if_neg (by rw [h]; decide), if_pos h]
      rw [hrun]
      exact ⟨rfl, _, rfl⟩
  · intro h1 h2 sch slot hsch hslot
    have hrun : cancelAppointment st apptId reason cb now
        = (.ok (cancelStamp a reason cb now),
            releaseSlot (replaceAppointment st (cancelStamp a reason cb now))
              a.schedule a.startTime a.endTime) := by
      unfold cancelAppointment
      rw [hfind]
      dsimp only
      rw [if_neg h1, if_neg h2]
    rw [hrun]
    refine ⟨rfl, ?_, ?_⟩
    · rw [releaseSlot_appointments]
      rfl
    · have hsch1 : findScheduleById
          (replaceAppointment st (cancelStamp a reason cb now))
          a.schedule = some sch := hsch
      have hwsch : scheduleWriteOk sch.timeSlots = true := by
        have hmem : sch ∈ st.schedules := by
          have hsch2 : st.schedules.find? (fun x => x.id == a.schedule) = some sch := hsch
          exact List.mem_of_find?_eq_some hsch2
        simp only [wfStateB, List.all_eq_true] at hw
        exact hw sch hmem
      unfold releaseSlot
      rw [hsch1]
      dsimp only
      rw [hslot]
      dsimp only
      split
      · next h3 =>
          have hw2 : scheduleWriteOk
              (updateSlotAvailability
                (modifyFirst (fun t => t.startTime == a.startTime && t.endTime == a.endTime)
                  (fun t => { t with currentAppointments := t.currentAppointments - 1 })
                  sch.timeSlots)) = true := by
            rw [writeOk_updateAvail]
            exact writeOk_modifyFirst_dec a.startTime a.endTime sch.timeSlots slot hwsch hslot h3
          unfold trySaveExisting
          rw [if_pos hw2]
          unfold slotOccupancy findScheduleById replaceSchedule
          dsimp only
          rw [find?_id_after_replace
                (replaceAppointment st (cancelStamp a reason cb now)).schedules
                a.schedule sch
                { sch with
                  timeSlots :=
                    updateSlotAvailability
                      (modifyFirst
                        (fun t => t.startTime == a.startTime && t.endTime == a.endTime)
                        (fun t => { t with currentAppointments := t.currentAppointments - 1 })
                        sch.timeSlots) }
                hsch1 rfl]
          dsimp only [Option.bind]
          rw [find?_time_updateAvail, find?_time_modifyFirst_dec _ _ _ _ hslot]
          dsimp only [Option.map]
          rw [show max 0 (slot.currentAppointments - 1) = slot.currentAppointments - 1
            from max_eq_right (by omega)]
      · next h3 =>
          have hb : slotBoundsB slot = true := by
            have hmem2 : slot ∈ sch.timeSlots := List.mem_of_find?_eq_some hslot
            exact List.all_eq_true.mp (slotBounds_of_writeOk hwsch) slot hmem2
          have hc0 : slot.currentAppointments = 0 := by
            simp only [slotBoundsB, Bool.and_eq_true, decide_eq_true_eq] at hb
            omega
          unfold slotOccupancy
          rw [hsch1]
          dsimp only [Option.bind]
          rw [hslot]
          dsimp only [Option.map]
          rw [hc0]
          decide

/-- The appointment, schedule and slot stored in `stSync`. -/
def apptSync : Appointment :=
  { id := 5, patient := 50, doctor := 1, schedule := 1, appointmentDate := 101
    startTime := "09:00", endTime := "10:00", status := .scheduled
    cancellationReason := none, cancelledBy := none, cancelledAt := none }

def schedSync : Schedule :=
  { id := 1, doctor := 1, date := 101
    timeSlots :=
      [ { startTime := "09:00", endTime := "10:00", isAvailable := true
          maxAppointments := 2, currentAppointments := 1 } ]
    isActive := true, notes := "" }

def slotSync : TimeSlot :=
  { startTime := "09:00", endTime := "10:00", isAvailable := true
    maxAppointments := 2, currentAppointments := 1 }

/-- Witness for C6 at `stSync`: cancelling the scheduled appointment 5
stamps it and drops the slot occupancy from 1 to 0. -/
theorem c6_cancel_behavior_witness :
    (cancelAppointment stSync 5 "sick" "patient" 777).1
        = .ok (cancelStamp apptSync "sick" "patient" 777)
  ∧ (cancelAppointment stSync 5 "sick" "patient" 777).2.appointments
      = stSync.appointments.map (fun x =>
          if x.id == apptSync.id then cancelStamp apptSync "sick" "patient" 777 else x)
  ∧ slotOccupancy (cancelAppointment stSync 5 "sick" "patient" 777).2
        apptSync.schedule apptSync.startTime apptSync.endTime
      = some (max 0 (slotSync.currentAppointments - 1)) :=
  (c6_cancel_behavior stSync 5 "sick" "patient" 777 apptSync (by decide) (by decide)).2
    (by decide) (by decide) schedSync slotSync (by decide) (by decide)
